import Mathlib

/-!
Verification development for the bad-boy scoring pipeline of
`calculate/bad_boy_stats.py` (class `BadBoyStats`).

The Python code is shallowly embedded: dict-shaped records become
structures, the store (a Python `dict`) becomes an association list with
replace-or-append insertion, Python `set` listing is modelled by
first-occurrence deduplication, and the JSON snapshot files become an
explicit `Json` tree with executable encoders and decoders.  Crime scores
are natural numbers (the scoring configuration maps categories to
non-negative integers).
-/

namespace BadBoy

/-! ### Models of the Python string primitives

Core `String.toUpper`, `trim` and `split` are byte-position based and do
not reduce in the kernel, so the Python string operations used by the
source (`str.upper`, `string.capwords`, `str.strip`) are modelled on the
underlying character lists (faithful for the ASCII data involved). -/

/-- Model of Python `str.upper` (ASCII). -/
def upper (s : String) : String :=
  ⟨s.data.map Char.toUpper⟩

/-- Model of Python `str.capitalize`: first character uppercased, the rest
lowercased. -/
def capitalizeWord (s : String) : String :=
  match s.data with
  | [] => ""
  | c :: cs => ⟨c.toUpper :: cs.map Char.toLower⟩

/-- Split a character list on whitespace, dropping empty fragments, as
Python `str.split()` does. -/
def splitWordsAux : List Char → List Char → List String
  | [], acc => if acc = [] then [] else [⟨acc.reverse⟩]
  | c :: cs, acc =>
    if c.isWhitespace then
      if acc = [] then splitWordsAux cs []
      else ⟨acc.reverse⟩ :: splitWordsAux cs []
    else splitWordsAux cs (c :: acc)

/-- Model of Python `str.split()` (split on whitespace runs, no empties). -/
def splitWords (s : String) : List String :=
  splitWordsAux s.data []

/-- Model of Python `string.capwords`: split on whitespace, capitalize
each word, join with single spaces. -/
def capwords (s : String) : String :=
  String.intercalate " " ((splitWords s).map capitalizeWord)

/-- Model of Python `str.strip()`: drop leading and trailing whitespace. -/
def strip (s : String) : String :=
  ⟨((s.data.dropWhile Char.isWhitespace).reverse.dropWhile Char.isWhitespace).reverse⟩

/-! ### Association lists standing in for Python dicts

`insertA` replaces the value at an existing key in place and appends a
fresh key at the end, exactly the update behaviour of a Python dict. -/

/-- Dict lookup: value at key `k`, if present. -/
def lookupA {α : Type} : List (String × α) → String → Option α
  | [], _ => none
  | (k', v) :: rest, k => if k' = k then some v else lookupA rest k

/-- Dict update: replace the value at `k` if present, else append `(k, v)`. -/
def insertA {α : Type} : List (String × α) → String → α → List (String × α)
  | [], k, v => [(k, v)]
  | (k', v') :: rest, k, v =>
    if k' = k then (k, v) :: rest else (k', v') :: insertA rest k v

/-- The keys of an association list. -/
def keysA {α : Type} (l : List (String × α)) : List String :=
  l.map (·.1)

/-! ### Data model -/

/-- One normalized arrest record, as assembled by the fetch loop of
`BadBoyStats.__init__` (keys `name`, `team`, `date`, `position`,
`position_type`, `case`, `crime`, `description`, `outcome`). -/
structure Arrest where
  name : String
  team : String
  date : String
  position : String
  position_type : String
  case_1 : String
  crime : String
  description : String
  outcome : String
deriving DecidableEq, Repr

/-- A per-player entry of `bad_boy_data` (the `nfl_player` dict shape).
An offense `{category: points}` is modelled as a `String × Nat` pair. -/
structure PlayerEntry where
  team : String
  pos : String
  offenses : List (String × Nat)
  total_points : Nat
  worst_offense : Option String
  worst_offense_points : Nat
deriving DecidableEq, Repr

/-- A team-defense entry of `bad_boy_data` (the `nfl_team` dict shape,
whose `"pos"` field is always the literal `"D/ST"`). -/
structure TeamEntry where
  players : List (String × PlayerEntry)
  total_points : Nat
  offenders : List String
  num_offenders : Nat
  worst_offense : Option String
  worst_offense_points : Nat
deriving DecidableEq, Repr

/-- A value of the `bad_boy_data` store: either a player dict or a team
D/ST dict (the source distinguishes them by `"pos" == "D/ST"`). -/
inductive Entry where
  | player (p : PlayerEntry)
  | team (t : TeamEntry)
deriving DecidableEq, Repr

/-- The `"pos"` field of an entry (`"D/ST"` for team entries). -/
def Entry.pos : Entry → String
  | .player p => p.pos
  | .team _ => "D/ST"

/-- The result of Python `.get("num_offenders")` on an entry: team dicts
have the key, player dicts do not (Python yields `None`). -/
def Entry.numOffendersField : Entry → Option Nat
  | .player _ => none
  | .team t => some t.num_offenders

/-- The `bad_boy_data` store: entity name (player full name or team
abbreviation) mapped to its entry. -/
abbrev Store := List (String × Entry)

/-- The crime-category scoring table `crime_rankings`. -/
abbrev CrimeRankings := List (String × Nat)

/-- The `raw_bad_boy_data` map: player name to last raw arrest record. -/
abbrev RawMap := List (String × Arrest)

/-- The mutable state of a `BadBoyStats` instance that `add_entry`
touches: the aggregate store, the raw-record map, and the accumulated
unique-crime-category export table. -/
structure BBState where
  bad_boy_data : Store
  raw_bad_boy_data : RawMap
  unique_crime_categories_for_output : List (String × Nat)
deriving DecidableEq, Repr

/-- The initial (empty) state. -/
def BBState.empty : BBState :=
  { bad_boy_data := [], raw_bad_boy_data := [], unique_crime_categories_for_output := [] }

/-! ### The aggregator: `BadBoyStats.add_entry` -/

/-- Points for an offense category: `crime_rankings[cat]` when the
category is known, else `0` (the source logs a warning). -/
def offensePoints (cr : CrimeRankings) (offense_category : String) : Nat :=
  (lookupA cr offense_category).getD 0

/-- The fresh `nfl_player` dict built for one arrest (lines 248–263 of the
source): zero-initialised, then the offense appended, the total
incremented, and the worst offense updated when the points exceed it. -/
def mkPlayerEntry (cr : CrimeRankings) (team_abbr : String) (player_arrest : Arrest) : PlayerEntry :=
  let offense_category := upper player_arrest.crime
  let pts := offensePoints cr offense_category
  let nfl_player : PlayerEntry :=
    { team := team_abbr, pos := player_arrest.position, offenses := [],
      total_points := 0, worst_offense := none, worst_offense_points := 0 }
  let nfl_player :=
    { nfl_player with
      offenses := nfl_player.offenses ++ [(offense_category, pts)],
      total_points := nfl_player.total_points + pts }
  if pts > nfl_player.worst_offense_points then
    { nfl_player with worst_offense := some offense_category, worst_offense_points := pts }
  else nfl_player

/-- Model of `nfl_team["offenders"].append(name)` followed by
`list(set(...))`: the set listing is fixed to first-occurrence order. -/
def insertOffender (offenders : List String) (n : String) : List String :=
  if n ∈ offenders then offenders else offenders ++ [n]

/-- The update the loop body of `add_entry` applies to the `nfl_team`
accumulator for one arrest (lines 267–277 of the source). -/
def teamStep (cr : CrimeRankings) (team_abbr : String) (nfl_team : TeamEntry)
    (player_arrest : Arrest) : TeamEntry :=
  let offense_category := upper player_arrest.crime
  let pts := offensePoints cr offense_category
  if player_arrest.position_type = "D" then
    let offenders' := insertOffender nfl_team.offenders player_arrest.name
    { players := insertA nfl_team.players player_arrest.name (mkPlayerEntry cr team_abbr player_arrest),
      total_points := nfl_team.total_points + pts,
      offenders := offenders',
      num_offenders := offenders'.length,
      worst_offense :=
        if pts > nfl_team.worst_offense_points then some offense_category
        else nfl_team.worst_offense,
      worst_offense_points :=
        if pts > nfl_team.worst_offense_points then pts
        else nfl_team.worst_offense_points }
  else nfl_team

/-- The update the loop body of `add_entry` applies to the instance state
for one arrest: record the category in the export table, store the raw
record, and assign the freshly built player entry into `bad_boy_data`. -/
def storeStep (cr : CrimeRankings) (team_abbr : String) (s : BBState)
    (player_arrest : Arrest) : BBState :=
  let offense_category := upper player_arrest.crime
  { bad_boy_data :=
      insertA s.bad_boy_data player_arrest.name (.player (mkPlayerEntry cr team_abbr player_arrest)),
    raw_bad_boy_data := insertA s.raw_bad_boy_data player_arrest.name player_arrest,
    unique_crime_categories_for_output :=
      insertA s.unique_crime_categories_for_output offense_category
        (offensePoints cr offense_category) }

/-- One iteration of the `for player_arrest in arrests` loop of
`add_entry`, threading both the instance state and the `nfl_team`
accumulator. -/
def processArrest (cr : CrimeRankings) (team_abbr : String)
    (st : BBState × TeamEntry) (player_arrest : Arrest) : BBState × TeamEntry :=
  (storeStep cr team_abbr st.1 player_arrest, teamStep cr team_abbr st.2 player_arrest)

/-- The zero-initialised `nfl_team` dict of `add_entry`. -/
def initTeam : TeamEntry :=
  { players := [], total_points := 0, offenders := [], num_offenders := 0,
    worst_offense := none, worst_offense_points := 0 }

/-- `BadBoyStats.add_entry(team_abbr, arrests)`: a no-op on a falsy
(empty) arrest list, otherwise folds the loop body over the arrests and
finally assigns the accumulated team entry under the team abbreviation. -/
def add_entry (cr : CrimeRankings) (s : BBState) (team_abbr : String)
    (arrests : List Arrest) : BBState :=
  if arrests = [] then s
  else
    let r := arrests.foldl (processArrest cr team_abbr) (s, initTeam)
    { r.1 with bad_boy_data := insertA r.1.bad_boy_data team_abbr (.team r.2) }

/-! ### Derived views of an arrest list, used to state aggregate facts -/

/-- The points an arrest scores (its uppercased category looked up in the
scoring table, defaulting to 0). -/
def arrestPoints (cr : CrimeRankings) (a : Arrest) : Nat :=
  offensePoints cr (upper a.crime)

/-- The arrests whose position type is defensive. -/
def dArrests (arrests : List Arrest) : List Arrest :=
  arrests.filter fun a => a.position_type = "D"

/-- The point values of the defensive arrests, in processing order. -/
def dPoints (cr : CrimeRankings) (arrests : List Arrest) : List Nat :=
  (dArrests arrests).map (arrestPoints cr)

/-- The offender names of the defensive arrests, in processing order. -/
def dNames (arrests : List Arrest) : List String :=
  (dArrests arrests).map (·.name)

/-- The team D/ST entry `add_entry` accumulates over an arrest list. -/
def teamAgg (cr : CrimeRankings) (team_abbr : String) (arrests : List Arrest) : TeamEntry :=
  arrests.foldl (teamStep cr team_abbr) initTeam

/-- The last arrest in the list whose player name is `k`, if any. -/
def lastArrestOf (k : String) : List Arrest → Option Arrest
  | [] => none
  | a :: rest =>
    match lastArrestOf k rest with
    | some b => some b
    | none => if a.name = k then some a else none

/-! ### The lookup service: `BadBoyStats.get_player_bad_boy_stats` -/

/-- Team-abbreviation normalization (lines 293–296 of the source): a
falsy (absent or empty) abbreviation becomes `"?"`, otherwise it is
uppercased; an uppercased code not among the canonical abbreviations is
passed through the alias table when present there. -/
def normalizeTeam (abbreviations : List String) (conversions : List (String × String))
    (player_team_abbr : Option String) : String :=
  let player_team :=
    match player_team_abbr with
    | none => "?"
    | some s => if s = "" then "?" else upper s
  if player_team ∈ abbreviations then player_team
  else
    match lookupA conversions player_team with
    | some conv => conv
    | none => player_team

/-- The canonical display name (lines 298–302): capwords of each present
name part, joined with a space when both are present, then stripped. -/
def playerFullName (player_first_name player_last_name : String) : String :=
  strip
    ((if player_first_name ≠ "" then capwords player_first_name else "") ++
     (if player_first_name ≠ "" ∧ player_last_name ≠ "" then " " else "") ++
     (if player_last_name ≠ "" then capwords player_last_name else ""))

/-- The sentinel key substituted for team-defense lookups (line 307). -/
def dstSentinel : String :=
  "TEMPORARY DISABLING OF TEAM DEFENSES IN BAD BOY POINTS"

/-- The store key a lookup actually uses: the canonical display name,
except that `"D/ST"` positions are short-circuited to the sentinel. -/
def effectiveName (player_first_name player_last_name player_pos : String) : String :=
  if player_pos = "D/ST" then dstSentinel
  else playerFullName player_first_name player_last_name

/-- `BadBoyStats.get_player_bad_boy_stats` (entry-returning form,
`key_str = ""`): returns the stored entry when the effective name is
present, otherwise synthesizes, inserts and returns a zero-valued player
entry.  The returned pair is (entry, updated store). -/
def get_player_bad_boy_stats (abbreviations : List String)
    (conversions : List (String × String)) (bad_boy_data : Store)
    (player_first_name player_last_name : String) (player_team_abbr : Option String)
    (player_pos : String) : Entry × Store :=
  let player_team := normalizeTeam abbreviations conversions player_team_abbr
  let player_full_name := effectiveName player_first_name player_last_name player_pos
  match lookupA bad_boy_data player_full_name with
  | some e => (e, bad_boy_data)
  | none =>
    let e : Entry := .player
      { team := player_team, pos := player_pos, offenses := [],
        total_points := 0, worst_offense := none, worst_offense_points := 0 }
    (e, insertA bad_boy_data player_full_name e)

/-- `BadBoyStats.get_player_bad_boy_num_offenders`: the generic lookup,
then `.get("num_offenders")` when the entry's `"pos"` is `"D/ST"`, else
the integer `0`.  A player-shaped entry whose `pos` is `"D/ST"` has no
`num_offenders` key, so Python yields `None`, modelled as `none`. -/
def get_player_bad_boy_num_offenders (abbreviations : List String)
    (conversions : List (String × String)) (bad_boy_data : Store)
    (player_first_name player_last_name : String) (player_team_abbr : Option String)
    (player_pos : String) : Option Nat × Store :=
  let r := get_player_bad_boy_stats abbreviations conversions bad_boy_data
    player_first_name player_last_name player_team_abbr player_pos
  (if r.1.pos = "D/ST" then r.1.numOffendersField else some 0, r.2)

/-! ### Persistence: `save_bad_boy_data` / `open_bad_boy_data`

The JSON snapshot files are modelled by an explicit JSON tree.  The
encoders write exactly the dict shapes the source builds (Python 3 dicts
preserve insertion order, so the serialized key order is fixed); the
decoders accept exactly those shapes, modelling `json.load` on a file the
program itself wrote. -/

/-- JSON values as written to and read from the snapshot files. -/
inductive Json where
  | null
  | str (s : String)
  | num (n : Nat)
  | arr (elems : List Json)
  | obj (fields : List (String × Json))
deriving Repr

/-- Sequence an option-valued function over a list, failing if any
element fails (Python `json.load` raises on any malformed piece). -/
def optMapM {α β : Type} (f : α → Option β) : List α → Option (List β)
  | [] => some []
  | x :: xs =>
    match f x, optMapM f xs with
    | some y, some ys => some (y :: ys)
    | _, _ => none

/-- Encode one offense `{category: points}`. -/
def encodeOffense (o : String × Nat) : Json :=
  .obj [(o.1, .num o.2)]

/-- Encode an optional string (`None` becomes JSON `null`). -/
def encodeOptStr : Option String → Json
  | none => .null
  | some s => .str s

/-- Encode a player entry with the source's key order. -/
def encodePlayer (p : PlayerEntry) : Json :=
  .obj [("team", .str p.team), ("pos", .str p.pos),
        ("offenses", .arr (p.offenses.map encodeOffense)),
        ("total_points", .num p.total_points),
        ("worst_offense", encodeOptStr p.worst_offense),
        ("worst_offense_points", .num p.worst_offense_points)]

/-- Encode a team D/ST entry with the source's key order. -/
def encodeTeam (t : TeamEntry) : Json :=
  .obj [("pos", .str "D/ST"),
        ("players", .obj (t.players.map fun nv => (nv.1, encodePlayer nv.2))),
        ("total_points", .num t.total_points),
        ("offenders", .arr (t.offenders.map Json.str)),
        ("num_offenders", .num t.num_offenders),
        ("worst_offense", encodeOptStr t.worst_offense),
        ("worst_offense_points", .num t.worst_offense_points)]

/-- Encode a store entry. -/
def encodeEntry : Entry → Json
  | .player p => encodePlayer p
  | .team t => encodeTeam t

/-- Encode the whole `bad_boy_data` store. -/
def encodeStore (s : Store) : Json :=
  .obj (s.map fun nv => (nv.1, encodeEntry nv.2))

/-- Encode a raw arrest record (the shape assembled by the fetch loop). -/
def encodeArrest (a : Arrest) : Json :=
  .obj [("name", .str a.name), ("team", .str a.team), ("date", .str a.date),
        ("position", .str a.position), ("position_type", .str a.position_type),
        ("case", .str a.case_1), ("crime", .str a.crime),
        ("description", .str a.description), ("outcome", .str a.outcome)]

/-- Encode the raw per-incident record map. -/
def encodeRaw (raw : RawMap) : Json :=
  .obj (raw.map fun nv => (nv.1, encodeArrest nv.2))

/-- Decode one offense `{category: points}`. -/
def decodeOffense : Json → Option (String × Nat)
  | .obj [(c, .num p)] => some (c, p)
  | _ => none

/-- Decode an optional string. -/
def decodeOptStr : Json → Option (Option String)
  | .null => some none
  | .str s => some (some s)
  | _ => none

/-- Decode a plain string. -/
def decodeStr : Json → Option String
  | .str s => some s
  | _ => none

/-- Decode a player entry. -/
def decodePlayer : Json → Option PlayerEntry
  | .obj [("team", .str team), ("pos", .str pos), ("offenses", .arr offs),
          ("total_points", .num tp), ("worst_offense", wo),
          ("worst_offense_points", .num wop)] =>
    match optMapM decodeOffense offs, decodeOptStr wo with
    | some offenses, some worst =>
      some { team := team, pos := pos, offenses := offenses, total_points := tp,
             worst_offense := worst, worst_offense_points := wop }
    | _, _ => none
  | _ => none

/-- Decode a team D/ST entry. -/
def decodeTeam : Json → Option TeamEntry
  | .obj [("pos", .str "D/ST"), ("players", .obj playersJ), ("total_points", .num tp),
          ("offenders", .arr offJ), ("num_offenders", .num no),
          ("worst_offense", wo), ("worst_offense_points", .num wop)] =>
    match optMapM (fun nv => (decodePlayer nv.2).map fun p => (nv.1, p)) playersJ,
          optMapM decodeStr offJ, decodeOptStr wo with
    | some players, some offenders, some worst =>
      some { players := players, total_points := tp, offenders := offenders,
             num_offenders := no, worst_offense := worst, worst_offense_points := wop }
    | _, _, _ => none
  | _ => none

/-- Decode a store entry: the source distinguishes the two dict shapes by
their fields (a team dict leads with `"pos": "D/ST"`, a player dict leads
with `"team"`). -/
def decodeEntry (j : Json) : Option Entry :=
  match decodeTeam j with
  | some t => some (.team t)
  | none => (decodePlayer j).map .player

/-- Decode the whole store. -/
def decodeStore : Json → Option Store
  | .obj entries => optMapM (fun nv => (decodeEntry nv.2).map fun e => (nv.1, e)) entries
  | _ => none

/-- The two snapshot files (`bad_boy_data.json`, `bad_boy_raw_data.json`)
on disk: `none` models an absent file. -/
structure FS where
  bad_boy_data_file : Option Json
  raw_bad_boy_data_file : Option Json

/-- `BadBoyStats.save_bad_boy_data`: writes both JSON documents, but only
when the `save_data` persist flag is enabled. -/
def save_bad_boy_data (save_data : Bool) (s : BBState) (fs : FS) : FS :=
  if save_data then
    { bad_boy_data_file := some (encodeStore s.bad_boy_data),
      raw_bad_boy_data_file := some (encodeRaw s.raw_bad_boy_data) }
  else fs

/-- `BadBoyStats.open_bad_boy_data`: if the snapshot file exists, replace
`bad_boy_data` with its parsed contents (`none` models a `json.load`
failure); otherwise keep the current store. -/
def open_bad_boy_data (fs : FS) (bad_boy_data : Store) : Option Store :=
  match fs.bad_boy_data_file with
  | none => some bad_boy_data
  | some j => decodeStore j

/-- The observable outcome of the `__init__` control flow around data
loading: proceed to a live web fetch, succeed with a loaded store, raise
the missing-offline-data `FileNotFoundError`, or fail parsing the
snapshot. -/
inductive InitOutcome where
  | webFetch
  | ok (store : Store)
  | missingDataError
  | parseError
deriving DecidableEq, Repr

/-- The data-loading control flow of `BadBoyStats.__init__` (lines 64–70
and 183–189 of the source): load any saved snapshot unless refreshing;
fetch from the web when refreshing or online with no loaded data; in
offline mode, raise the distinct missing-data error when nothing was
loaded. -/
def init_flow (offline refresh : Bool) (fs : FS) : InitOutcome :=
  let loaded? : Option Store := if refresh then some [] else open_bad_boy_data fs []
  match loaded? with
  | none => .parseError
  | some loaded =>
    if refresh || !offline then
      if loaded = [] then .webFetch else .ok loaded
    else
      if loaded = [] then .missingDataError else .ok loaded

/-! ### Concrete instances used by the scenario theorems and witnesses -/

/-- The crime table of the spec's worked scenario. -/
def scenarioRankings : CrimeRankings := [("DUI", 5), ("ASSAULT", 10)]

/-- First scenario arrest: John Smith, LB (defensive position type), DUI. -/
def arrestDUI : Arrest :=
  { name := "John Smith", team := "XYZ", date := "", position := "LB",
    position_type := "D", case_1 := "", crime := "DUI", description := "", outcome := "" }

/-- Second scenario arrest: John Smith, LB, ASSAULT. -/
def arrestAssault : Arrest := { arrestDUI with crime := "ASSAULT" }

/-- The store after running the spec's worked scenario on team "XYZ". -/
def scenarioStore : Store :=
  (add_entry scenarioRankings BBState.empty "XYZ" [arrestDUI, arrestAssault]).bad_boy_data

/-- The same scenario with the two arrests processed in the other order. -/
def scenarioStoreRev : Store :=
  (add_entry scenarioRankings BBState.empty "XYZ" [arrestAssault, arrestDUI]).bad_boy_data

/-- A second concrete crime table. -/
def c2Rankings : CrimeRankings := [("DUI", 3), ("THEFT", 4)]

/-- A concrete offensive-player arrest. -/
def c2ArrestDUI : Arrest :=
  { name := "Bob Jones", team := "ABC", date := "", position := "QB",
    position_type := "O", case_1 := "", crime := "DUI", description := "", outcome := "" }

/-- A second arrest of the same offensive player. -/
def c2ArrestTheft : Arrest := { c2ArrestDUI with crime := "THEFT" }

/-- A one-team canonical abbreviation table. -/
def c5Abbrs : List String := ["XYZ"]

/-- An alias table mapping the alternate code "OLD" to canonical "XYZ". -/
def c5Convs : List (String × String) := [("OLD", "XYZ")]

/-- A concrete zero-valued player entry for persistence tests. -/
def c9Entry : Entry :=
  .player { team := "?", pos := "QB", offenses := [], total_points := 0,
            worst_offense := none, worst_offense_points := 0 }

/-! ### Association-list (dict) lemmas -/

theorem lookupA_insertA_self {α : Type} (l : List (String × α)) (k : String) (v : α) :
    lookupA (insertA l k v) k = some v := by
  induction l with
  | nil => simp [insertA, lookupA]
  | cons p rest ih =>
    obtain ⟨k', v'⟩ := p
    by_cases h : k' = k
    · simp [insertA, h, lookupA]
    · simp [insertA, h, lookupA, ih]

theorem lookupA_insertA_ne {α : Type} (l : List (String × α)) (k k' : String) (v : α)
    (h : k' ≠ k) : lookupA (insertA l k v) k' = lookupA l k' := by
  induction l with
  | nil => simp [insertA, lookupA, Ne.symm h]
  | cons p rest ih =>
    obtain ⟨k₀, v₀⟩ := p
    by_cases h0 : k₀ = k
    · subst h0
      simp [insertA, lookupA, Ne.symm h]
    · simp [insertA, h0, lookupA, ih]

/-! ### JSON round-trip lemmas -/

theorem optMapM_map {α β : Type} (f : α → Option β) (g : β → α) (l : List β)
    (h : ∀ x ∈ l, f (g x) = some x) : optMapM f (l.map g) = some l := by
  induction l with
  | nil => rfl
  | cons x xs ih =>
    have hx : f (g x) = some x := h x (by simp)
    have hxs : optMapM f (xs.map g) = some xs := ih fun y hy => h y (by simp [hy])
    simp only [List.map_cons, optMapM, hx, hxs]

theorem decodeOffense_encodeOffense (o : String × Nat) :
    decodeOffense (encodeOffense o) = some o := rfl

theorem decodeOptStr_encodeOptStr (w : Option String) :
    decodeOptStr (encodeOptStr w) = some w := by
  cases w <;> rfl

theorem decodePlayer_encodePlayer (p : PlayerEntry) :
    decodePlayer (encodePlayer p) = some p := by
  simp only [encodePlayer, decodePlayer,
    optMapM_map decodeOffense encodeOffense p.offenses (fun x _ => decodeOffense_encodeOffense x),
    decodeOptStr_encodeOptStr]

theorem decodeTeam_encodePlayer (p : PlayerEntry) :
    decodeTeam (encodePlayer p) = none := rfl

theorem decodeTeam_encodeTeam (t : TeamEntry) :
    decodeTeam (encodeTeam t) = some t := by
  simp only [encodeTeam, decodeTeam,
    optMapM_map (fun nv => (decodePlayer nv.2).map fun p => (nv.1, p))
      (fun nv => (nv.1, encodePlayer nv.2)) t.players
      (fun x _ => by simp [decodePlayer_encodePlayer]),
    optMapM_map decodeStr Json.str t.offenders (fun x _ => rfl),
    decodeOptStr_encodeOptStr]

theorem decodeEntry_encodeEntry (e : Entry) :
    decodeEntry (encodeEntry e) = some e := by
  cases e with
  | player p => simp [decodeEntry, encodeEntry, decodeTeam_encodePlayer, decodePlayer_encodePlayer]
  | team t => simp [decodeEntry, encodeEntry, decodeTeam_encodeTeam]

theorem decodeStore_encodeStore (s : Store) :
    decodeStore (encodeStore s) = some s := by
  simp only [encodeStore, decodeStore,
    optMapM_map (fun nv => (decodeEntry nv.2).map fun e => (nv.1, e))
      (fun nv => (nv.1, encodeEntry nv.2)) s
      (fun x _ => by simp [decodeEntry_encodeEntry])]

/-! ### Loop-body decomposition of `add_entry` -/

theorem foldl_processArrest (cr : CrimeRankings) (tb : String) (l : List Arrest)
    (s : BBState) (t : TeamEntry) :
    l.foldl (processArrest cr tb) (s, t) =
      (l.foldl (storeStep cr tb) s, l.foldl (teamStep cr tb) t) := by
  induction l generalizing s t with
  | nil => rfl
  | cons a rest ih => simpa [processArrest] using ih (storeStep cr tb s a) (teamStep cr tb t a)

theorem mkPlayerEntry_fields (cr : CrimeRankings) (tb : String) (a : Arrest) :
    mkPlayerEntry cr tb a =
      { team := tb, pos := a.position,
        offenses := [(upper a.crime, arrestPoints cr a)],
        total_points := arrestPoints cr a,
        worst_offense := if arrestPoints cr a > 0 then some (upper a.crime) else none,
        worst_offense_points := arrestPoints cr a } := by
  unfold mkPlayerEntry arrestPoints
  by_cases h : offensePoints cr (upper a.crime) > 0
  · simp [h]
  · simp [h]
    omega

/-! ### Closed forms of the team D/ST accumulation -/

theorem insertOffender_toFinset (xs : List String) (n : String) :
    (insertOffender xs n).toFinset = insert n xs.toFinset := by
  unfold insertOffender
  split
  · rename_i h
    rw [Finset.insert_eq_self.mpr (List.mem_toFinset.mpr h)]
  · simp only [List.toFinset_append, List.toFinset_cons, List.toFinset_nil,
      insert_emptyc_eq]
    rw [Finset.union_comm, ← Finset.insert_eq]

theorem insertOffender_nodup (xs : List String) (n : String) (h : xs.Nodup) :
    (insertOffender xs n).Nodup := by
  unfold insertOffender
  split
  · exact h
  · rename_i hn
    simpa [List.nodup_append, h] using hn

theorem teamFold_total (cr : CrimeRankings) (tb : String) (l : List Arrest) (t : TeamEntry) :
    (l.foldl (teamStep cr tb) t).total_points = t.total_points + (dPoints cr l).sum := by
  induction l generalizing t with
  | nil => simp [dPoints, dArrests]
  | cons a rest ih =>
    by_cases hd : a.position_type = "D"
    · simp only [List.foldl_cons, ih]
      simp [teamStep, hd, dPoints, dArrests, arrestPoints]
      omega
    · simp only [List.foldl_cons, ih, teamStep, hd]
      simp [hd, dPoints, dArrests, teamStep]

theorem teamFold_worst (cr : CrimeRankings) (tb : String) (l : List Arrest) (t : TeamEntry) :
    (l.foldl (teamStep cr tb) t).worst_offense_points =
      (dPoints cr l).foldl max t.worst_offense_points := by
  induction l generalizing t with
  | nil => simp [dPoints, dArrests]
  | cons a rest ih =>
    by_cases hd : a.position_type = "D"
    · simp only [List.foldl_cons, ih]
      have hmax : (teamStep cr tb t a).worst_offense_points =
          max t.worst_offense_points (arrestPoints cr a) := by
        simp only [arrestPoints]
        simp only [teamStep, hd]
        rcases Nat.lt_or_ge t.worst_offense_points (offensePoints cr (upper a.crime)) with hlt | hge
        · simp [if_pos hlt, Nat.max_eq_right (Nat.le_of_lt hlt)]
        · simp [if_neg (Nat.not_lt.mpr hge), Nat.max_eq_left hge]
      rw [hmax]
      simp [dPoints, dArrests, hd]
    · simp only [List.foldl_cons, ih, teamStep, hd]
      simp [hd, dPoints, dArrests, teamStep]

theorem teamFold_offenders (cr : CrimeRankings) (tb : String) (l : List Arrest) (t : TeamEntry) :
    (l.foldl (teamStep cr tb) t).offenders = (dNames l).foldl insertOffender t.offenders := by
  induction l generalizing t with
  | nil => simp [dNames, dArrests]
  | cons a rest ih =>
    by_cases hd : a.position_type = "D"
    · simp only [List.foldl_cons, ih, teamStep, hd, if_pos]
      simp [dNames, dArrests, hd, teamStep]
    · simp only [List.foldl_cons, ih, teamStep, hd]
      simp [hd, dNames, dArrests, teamStep]

theorem foldl_insertOffender_toFinset (names : List String) (xs : List String) :
    (names.foldl insertOffender xs).toFinset = xs.toFinset ∪ names.toFinset := by
  induction names generalizing xs with
  | nil => simp
  | cons n ns ih =>
    simp only [List.foldl_cons, ih, insertOffender_toFinset]
    simp [Finset.insert_union, Finset.union_insert]

theorem foldl_insertOffender_nodup (names : List String) (xs : List String) (h : xs.Nodup) :
    (names.foldl insertOffender xs).Nodup := by
  induction names generalizing xs with
  | nil => exact h
  | cons n ns ih => exact ih _ (insertOffender_nodup _ _ h)

theorem teamFold_num (cr : CrimeRankings) (tb : String) (l : List Arrest) (t : TeamEntry)
    (h : t.num_offenders = t.offenders.length) :
    (l.foldl (teamStep cr tb) t).num_offenders = (l.foldl (teamStep cr tb) t).offenders.length := by
  induction l generalizing t with
  | nil => exact h
  | cons a rest ih =>
    by_cases hd : a.position_type = "D"
    · exact ih _ (by simp [teamStep, hd])
    · exact ih _ (by simpa [teamStep, hd] using h)

/-! ### Closed form of the per-player store updates, and wiring into `add_entry` -/

theorem storeFold_lookup (cr : CrimeRankings) (tb : String) (l : List Arrest)
    (s : BBState) (k : String) :
    lookupA (l.foldl (storeStep cr tb) s).bad_boy_data k =
      match lastArrestOf k l with
      | some a => some (.player (mkPlayerEntry cr tb a))
      | none => lookupA s.bad_boy_data k := by
  induction l generalizing s with
  | nil => rfl
  | cons a rest ih =>
    simp only [List.foldl_cons, ih, lastArrestOf]
    cases h : lastArrestOf k rest with
    | some b => rfl
    | none =>
      by_cases hn : a.name = k
      · rw [if_pos hn]
        subst hn
        simp only [storeStep]
        exact lookupA_insertA_self _ _ _
      · rw [if_neg hn]
        simp only [storeStep]
        exact lookupA_insertA_ne _ _ _ _ fun hh => hn hh.symm

theorem add_entry_team_lookup (cr : CrimeRankings) (s : BBState) (tb : String)
    (l : List Arrest) (h : l ≠ []) :
    lookupA (add_entry cr s tb l).bad_boy_data tb = some (.team (teamAgg cr tb l)) := by
  unfold add_entry
  rw [if_neg h]
  simp only [foldl_processArrest, teamAgg]
  exact lookupA_insertA_self _ _ _

theorem add_entry_player_lookup (cr : CrimeRankings) (s : BBState) (tb : String)
    (l : List Arrest) (k : String) (h : l ≠ []) (hk : k ≠ tb) :
    lookupA (add_entry cr s tb l).bad_boy_data k =
      match lastArrestOf k l with
      | some a => some (.player (mkPlayerEntry cr tb a))
      | none => lookupA s.bad_boy_data k := by
  unfold add_entry
  rw [if_neg h]
  simp only [foldl_processArrest]
  rw [lookupA_insertA_ne _ _ _ _ hk]
  exact storeFold_lookup cr tb l s k

/-! ### Permutation invariance of the commutative team aggregates -/

theorem foldl_max_perm {l₁ l₂ : List Nat} (h : l₁.Perm l₂) (a : Nat) :
    l₁.foldl max a = l₂.foldl max a := by
  induction h generalizing a with
  | nil => rfl
  | cons x _ ih => simp only [List.foldl_cons, ih]
  | swap x y l => simp only [List.foldl_cons, Nat.max_right_comm]
  | trans _ _ ih₁ ih₂ => rw [ih₁, ih₂]

theorem dPoints_perm (cr : CrimeRankings) {l₁ l₂ : List Arrest} (h : l₁.Perm l₂) :
    (dPoints cr l₁).Perm (dPoints cr l₂) :=
  ((h.filter _).map _)

theorem dNames_perm {l₁ l₂ : List Arrest} (h : l₁.Perm l₂) :
    (dNames l₁).Perm (dNames l₂) :=
  ((h.filter _).map _)

theorem teamAgg_total (cr : CrimeRankings) (tb : String) (l : List Arrest) :
    (teamAgg cr tb l).total_points = (dPoints cr l).sum := by
  simpa [initTeam] using teamFold_total cr tb l initTeam

theorem teamAgg_worst (cr : CrimeRankings) (tb : String) (l : List Arrest) :
    (teamAgg cr tb l).worst_offense_points = (dPoints cr l).foldl max 0 := by
  simpa [initTeam] using teamFold_worst cr tb l initTeam

theorem teamAgg_offenders_toFinset (cr : CrimeRankings) (tb : String) (l : List Arrest) :
    (teamAgg cr tb l).offenders.toFinset = (dNames l).toFinset := by
  unfold teamAgg
  rw [teamFold_offenders, foldl_insertOffender_toFinset]
  simp [initTeam]

theorem teamAgg_offenders_nodup (cr : CrimeRankings) (tb : String) (l : List Arrest) :
    (teamAgg cr tb l).offenders.Nodup := by
  unfold teamAgg
  rw [teamFold_offenders]
  exact foldl_insertOffender_nodup _ _ (by simp [initTeam])

theorem teamAgg_num (cr : CrimeRankings) (tb : String) (l : List Arrest) :
    (teamAgg cr tb l).num_offenders = (teamAgg cr tb l).offenders.length :=
  teamFold_num cr tb l initTeam (by simp [initTeam])

theorem teamAgg_num_card (cr : CrimeRankings) (tb : String) (l : List Arrest) :
    (teamAgg cr tb l).num_offenders = (dNames l).toFinset.card := by
  rw [teamAgg_num, ← teamAgg_offenders_toFinset cr tb l,
    List.toFinset_card_of_nodup (teamAgg_offenders_nodup cr tb l)]

/-! ### A congruence helper for the lookup service -/

/-- The generic lookup depends on the team argument only through its
normalization. -/
theorem get_stats_team_congr (abbrs : List String) (convs : List (String × String))
    (data : Store) (f l : String) (pos : String) (t₁ t₂ : Option String)
    (h : normalizeTeam abbrs convs t₁ = normalizeTeam abbrs convs t₂) :
    get_player_bad_boy_stats abbrs convs data f l t₁ pos =
      get_player_bad_boy_stats abbrs convs data f l t₂ pos := by
  unfold get_player_bad_boy_stats
  rw [h]

/-! ### Claim theorems -/

/-- Claim C1, counterexample: in the spec's worked scenario the claim
expects player "John Smith" to end with `total_points = 15`, but
`add_entry` rebuilds the player entry from scratch on each arrest, so the
stored entry carries only the last offense and `total_points = 10`. -/
theorem c1_counterexample :
    lookupA scenarioStore "John Smith" =
      some (.player { team := "XYZ", pos := "LB", offenses := [("ASSAULT", 10)],
                      total_points := 10, worst_offense := some "ASSAULT",
                      worst_offense_points := 10 }) ∧
    (10 : Nat) ≠ 15 := by decide

/-- Claim C1, amended: for the scoring table `{"DUI": 5, "ASSAULT": 10}`
and the two John Smith arrests on team "XYZ", the final store has player
"John Smith" with `total_points = 10` (only the last-processed offense is
kept), `worst_offense = "ASSAULT"`, `worst_offense_points = 10`, and team
entry "XYZ" with `total_points = 15` and `num_offenders = 1` exactly as
the claim states. -/
theorem c1_amended_scenario :
    lookupA scenarioStore "John Smith" =
      some (.player { team := "XYZ", pos := "LB", offenses := [("ASSAULT", 10)],
                      total_points := 10, worst_offense := some "ASSAULT",
                      worst_offense_points := 10 }) ∧
    lookupA scenarioStore "XYZ" =
      some (.team { players := [("John Smith",
                      { team := "XYZ", pos := "LB", offenses := [("ASSAULT", 10)],
                        total_points := 10, worst_offense := some "ASSAULT",
                        worst_offense_points := 10 })],
                    total_points := 15, offenders := ["John Smith"], num_offenders := 1,
                    worst_offense := some "ASSAULT", worst_offense_points := 10 }) := by
  decide

/-- Claim C2, counterexample: for the table `{"DUI": 3, "THEFT": 4}` and
two arrests of "Bob Jones", the claim predicts `total_points = 3 + 4`,
but the stored entry has `total_points = 4`: the per-player totals are
not sums over all of the player's offenses. -/
theorem c2_counterexample :
    lookupA (add_entry c2Rankings BBState.empty "ABC" [c2ArrestDUI, c2ArrestTheft]).bad_boy_data
        "Bob Jones" =
      some (.player { team := "ABC", pos := "QB", offenses := [("THEFT", 4)],
                      total_points := 4, worst_offense := some "THEFT",
                      worst_offense_points := 4 }) ∧
    (4 : Nat) ≠ 3 + 4 := by decide

/-- Claim C2, amended: after `add_entry`, a player entry (for a key
distinct from the team abbreviation) is exactly the entry rebuilt from
that player's last-processed arrest, so `total_points` and
`worst_offense_points` both equal the point value of that single last
offense — not the sum resp. maximum over all of the player's offenses in
the sequence. -/
theorem c2_amended (cr : CrimeRankings) (s : BBState) (tb : String) (l : List Arrest)
    (k : String) (a : Arrest) (hne : l ≠ []) (hk : k ≠ tb)
    (ha : lastArrestOf k l = some a) :
    lookupA (add_entry cr s tb l).bad_boy_data k = some (.player (mkPlayerEntry cr tb a)) ∧
    (mkPlayerEntry cr tb a).total_points = arrestPoints cr a ∧
    (mkPlayerEntry cr tb a).worst_offense_points = arrestPoints cr a := by
  refine ⟨?_, ?_, ?_⟩
  · rw [add_entry_player_lookup cr s tb l k hne hk, ha]
  · rw [mkPlayerEntry_fields]
  · rw [mkPlayerEntry_fields]

/-- Witness for the amended C2 theorem at the concrete two-arrest input. -/
theorem c2_witness :
    lookupA (add_entry c2Rankings BBState.empty "ABC" [c2ArrestDUI, c2ArrestTheft]).bad_boy_data
        "Bob Jones" = some (.player (mkPlayerEntry c2Rankings "ABC" c2ArrestTheft)) ∧
    (mkPlayerEntry c2Rankings "ABC" c2ArrestTheft).total_points =
      arrestPoints c2Rankings c2ArrestTheft ∧
    (mkPlayerEntry c2Rankings "ABC" c2ArrestTheft).worst_offense_points =
      arrestPoints c2Rankings c2ArrestTheft :=
  c2_amended c2Rankings BBState.empty "ABC" [c2ArrestDUI, c2ArrestTheft] "Bob Jones"
    c2ArrestTheft (by decide) (by decide) (by decide)

/-- Claim C3, counterexample: the two orderings of the scenario arrest
list are permutations of each other, yet the final stores disagree on the
player entry for "John Smith" (each ordering keeps only its
last-processed arrest), so aggregation is not order-independent as
claimed. -/
theorem c3_counterexample :
    [arrestDUI, arrestAssault].Perm [arrestAssault, arrestDUI] ∧
    lookupA scenarioStore "John Smith" ≠ lookupA scenarioStoreRev "John Smith" := by
  decide

/-- Claim C3, amended: over any permutation of an arrest list, the final
team D/ST entries agree on the commutative aggregates — `total_points`
(a sum), `worst_offense_points` (a maximum), the offender set, and
`num_offenders` — while per-player entries (and hence the team's
`players` map and `worst_offense` label) need not coincide. -/
theorem c3_amended (cr : CrimeRankings) (tb : String) (s₁ s₂ : BBState)
    (l₁ l₂ : List Arrest) (hperm : l₁.Perm l₂) (h1 : l₁ ≠ []) :
    ∃ t₁ t₂ : TeamEntry,
      lookupA (add_entry cr s₁ tb l₁).bad_boy_data tb = some (.team t₁) ∧
      lookupA (add_entry cr s₂ tb l₂).bad_boy_data tb = some (.team t₂) ∧
      t₁.total_points = t₂.total_points ∧
      t₁.worst_offense_points = t₂.worst_offense_points ∧
      t₁.offenders.toFinset = t₂.offenders.toFinset ∧
      t₁.num_offenders = t₂.num_offenders := by
  have h2 : l₂ ≠ [] := fun hn => h1 (List.Perm.eq_nil (hn ▸ hperm))
  refine ⟨teamAgg cr tb l₁, teamAgg cr tb l₂, add_entry_team_lookup _ _ _ _ h1,
    add_entry_team_lookup _ _ _ _ h2, ?_, ?_, ?_, ?_⟩
  · rw [teamAgg_total, teamAgg_total]
    exact (dPoints_perm cr hperm).sum_eq
  · rw [teamAgg_worst, teamAgg_worst]
    exact foldl_max_perm (dPoints_perm cr hperm) 0
  · rw [teamAgg_offenders_toFinset, teamAgg_offenders_toFinset]
    exact List.toFinset_eq_of_perm _ _ (dNames_perm hperm)
  · rw [teamAgg_num_card, teamAgg_num_card, List.toFinset_eq_of_perm _ _ (dNames_perm hperm)]

/-- Witness for the amended C3 theorem at the two concrete orderings of
the scenario arrest list. -/
theorem c3_witness :
    ∃ t₁ t₂ : TeamEntry,
      lookupA (add_entry scenarioRankings BBState.empty "XYZ"
          [arrestDUI, arrestAssault]).bad_boy_data "XYZ" = some (.team t₁) ∧
      lookupA (add_entry scenarioRankings BBState.empty "XYZ"
          [arrestAssault, arrestDUI]).bad_boy_data "XYZ" = some (.team t₂) ∧
      t₁.total_points = t₂.total_points ∧
      t₁.worst_offense_points = t₂.worst_offense_points ∧
      t₁.offenders.toFinset = t₂.offenders.toFinset ∧
      t₁.num_offenders = t₂.num_offenders :=
  c3_amended scenarioRankings "XYZ" BBState.empty BBState.empty
    [arrestDUI, arrestAssault] [arrestAssault, arrestDUI] (by decide) (by decide)

/-- Claim C4: when the effective lookup key is absent from the store, the
lookup synthesizes and returns the zero-valued entry (team and position
recorded, all point fields zero) instead of failing, the entity is
present in the updated store, and a second call with the same identity
returns the structurally identical entry and leaves the store unchanged. -/
theorem c4_lookup_idempotent (abbrs : List String) (convs : List (String × String))
    (data : Store) (f l : String) (team : Option String) (pos : String)
    (h : lookupA data (effectiveName f l pos) = none) :
    (get_player_bad_boy_stats abbrs convs data f l team pos).1 =
      Entry.player { team := normalizeTeam abbrs convs team, pos := pos, offenses := [],
                     total_points := 0, worst_offense := none, worst_offense_points := 0 } ∧
    lookupA (get_player_bad_boy_stats abbrs convs data f l team pos).2
        (effectiveName f l pos) =
      some (get_player_bad_boy_stats abbrs convs data f l team pos).1 ∧
    get_player_bad_boy_stats abbrs convs
        (get_player_bad_boy_stats abbrs convs data f l team pos).2 f l team pos =
      ((get_player_bad_boy_stats abbrs convs data f l team pos).1,
       (get_player_bad_boy_stats abbrs convs data f l team pos).2) := by
  simp only [get_player_bad_boy_stats, h]
  simp [lookupA_insertA_self]

/-- Witness for the C4 theorem at a concrete unknown identity. -/
theorem c4_witness :
    (get_player_bad_boy_stats c5Abbrs c5Convs [] "john" "smith" (some "xyz") "QB").1 =
      Entry.player { team := normalizeTeam c5Abbrs c5Convs (some "xyz"), pos := "QB",
                     offenses := [], total_points := 0, worst_offense := none,
                     worst_offense_points := 0 } ∧
    lookupA (get_player_bad_boy_stats c5Abbrs c5Convs [] "john" "smith" (some "xyz") "QB").2
        (effectiveName "john" "smith" "QB") =
      some (get_player_bad_boy_stats c5Abbrs c5Convs [] "john" "smith" (some "xyz") "QB").1 ∧
    get_player_bad_boy_stats c5Abbrs c5Convs
        (get_player_bad_boy_stats c5Abbrs c5Convs [] "john" "smith" (some "xyz") "QB").2
        "john" "smith" (some "xyz") "QB" =
      ((get_player_bad_boy_stats c5Abbrs c5Convs [] "john" "smith" (some "xyz") "QB").1,
       (get_player_bad_boy_stats c5Abbrs c5Convs [] "john" "smith" (some "xyz") "QB").2) :=
  c4_lookup_idempotent c5Abbrs c5Convs [] "john" "smith" (some "xyz") "QB" (by decide)

/-- Claim C5, counterexample: for the unknown non-empty team code "zz"
(neither canonical nor aliased), the synthesized entry records the
uppercased code "ZZ", not the claimed fallback "?" — only an absent or
empty team falls back to "?". -/
theorem c5_counterexample :
    (get_player_bad_boy_stats c5Abbrs c5Convs [] "Joe" "Moe" (some "zz") "QB").1 =
      Entry.player { team := "ZZ", pos := "QB", offenses := [], total_points := 0,
                     worst_offense := none, worst_offense_points := 0 } ∧
    "ZZ" ≠ "?" := by decide

/-- Claim C5, amended: team normalization falls back to "?" only for an
absent or empty abbreviation; a code whose uppercase form is aliased to a
canonical abbreviation resolves to that canonical abbreviation — and the
whole lookup behaves identically under the alias and the canonical code —
while an unknown non-empty abbreviation is recorded as its own uppercase
form, not "?". -/
theorem c5_amended (abbrs : List String) (convs : List (String × String)) :
    (("?" ∉ abbrs) → lookupA convs "?" = none →
      normalizeTeam abbrs convs none = "?" ∧ normalizeTeam abbrs convs (some "") = "?") ∧
    (∀ al canon : String, al ≠ "" → upper al ∉ abbrs →
      lookupA convs (upper al) = some canon →
      normalizeTeam abbrs convs (some al) = canon ∧
      (canon ∈ abbrs → upper canon = canon → canon ≠ "" →
        normalizeTeam abbrs convs (some canon) = canon ∧
        ∀ (data : Store) (f l pos : String),
          get_player_bad_boy_stats abbrs convs data f l (some al) pos =
            get_player_bad_boy_stats abbrs convs data f l (some canon) pos)) ∧
    (∀ u : String, u ≠ "" → upper u ∉ abbrs → lookupA convs (upper u) = none →
      normalizeTeam abbrs convs (some u) = upper u) := by
  refine ⟨fun h1 h2 => ⟨?_, ?_⟩, fun al canon hal h1 h2 => ?_, fun u hu h1 h2 => ?_⟩
  · simp [normalizeTeam, h1, h2]
  · simp [normalizeTeam, h1, h2]
  · have hal' : normalizeTeam abbrs convs (some al) = canon := by
      simp [normalizeTeam, hal, h1, h2]
    refine ⟨hal', fun hc1 hc2 hce => ?_⟩
    have hcanon : normalizeTeam abbrs convs (some canon) = canon := by
      simp [normalizeTeam, hce, hc2, hc1]
    exact ⟨hcanon, fun data f l pos =>
      get_stats_team_congr abbrs convs data f l pos (some al) (some canon)
        (hal'.trans hcanon.symm)⟩
  · simp [normalizeTeam, hu, h1, h2]

/-- Witness for the amended C5 theorem on the concrete alias table. -/
theorem c5_witness :
    normalizeTeam c5Abbrs c5Convs none = "?" ∧
    normalizeTeam c5Abbrs c5Convs (some "old") = "XYZ" ∧
    get_player_bad_boy_stats c5Abbrs c5Convs [] "a" "b" (some "old") "QB" =
      get_player_bad_boy_stats c5Abbrs c5Convs [] "a" "b" (some "XYZ") "QB" ∧
    normalizeTeam c5Abbrs c5Convs (some "zz") = "ZZ" := by
  refine ⟨((c5_amended c5Abbrs c5Convs).1 (by decide) (by decide)).1, ?_, ?_,
    (c5_amended c5Abbrs c5Convs).2.2 "zz" (by decide) (by decide) (by decide)⟩
  · exact ((c5_amended c5Abbrs c5Convs).2.1 "old" "XYZ" (by decide) (by decide) (by decide)).1
  · exact (((c5_amended c5Abbrs c5Convs).2.1 "old" "XYZ" (by decide) (by decide)
      (by decide)).2 (by decide) (by decide) (by decide)).2 [] "a" "b" "QB"

/-- Claim C6, counterexample: a D/ST lookup that misses the store
synthesizes a player-shaped entry whose `pos` is "D/ST" but which has no
`num_offenders` key, so the offender-count wrapper returns Python `None`
(modelled `none`), not an integer. -/
theorem c6_counterexample :
    (get_player_bad_boy_num_offenders c5Abbrs c5Convs [] "Joe" "Moe" (some "XYZ") "D/ST").1 =
      none ∧
    (none : Option Nat) ≠ some 0 := by decide

/-- Claim C6, amended: the offender-count wrapper returns the stored
offender count for a team D/ST entry, the integer 0 for a player entry
whose position is not "D/ST", and no integer at all (Python `None`) for a
player-shaped entry whose position is "D/ST" — the case produced by a
D/ST lookup miss; the store side effect is that of the generic lookup. -/
theorem c6_amended (abbrs : List String) (convs : List (String × String)) (data : Store)
    (f l : String) (team : Option String) (pos : String) :
    (get_player_bad_boy_num_offenders abbrs convs data f l team pos).1 =
      (match (get_player_bad_boy_stats abbrs convs data f l team pos).1 with
       | .team t => some t.num_offenders
       | .player p => if p.pos = "D/ST" then none else some 0) ∧
    (get_player_bad_boy_num_offenders abbrs convs data f l team pos).2 =
      (get_player_bad_boy_stats abbrs convs data f l team pos).2 := by
  unfold get_player_bad_boy_num_offenders
  cases hE : (get_player_bad_boy_stats abbrs convs data f l team pos).1 with
  | player p =>
    by_cases hp : p.pos = "D/ST" <;> simp [Entry.pos, Entry.numOffendersField, hp, hE]
  | team t => simp [Entry.pos, Entry.numOffendersField, hE]

/-- Claim C7: after any non-empty `add_entry`, the stored team D/ST entry
has a duplicate-free offender list, `num_offenders` equal to the number
of distinct defensive offender names, the offender set equal to the set
of names of the defensive arrests, and `total_points` equal to the sum of
all defensive arrests' points — so repeated arrests of the same defensive
player raise `total_points` by each offense but never raise
`num_offenders` beyond one for that player. -/
theorem c7_team_offender_set (cr : CrimeRankings) (s : BBState) (tb : String)
    (l : List Arrest) (h : l ≠ []) :
    ∃ t : TeamEntry,
      lookupA (add_entry cr s tb l).bad_boy_data tb = some (.team t) ∧
      t.offenders.Nodup ∧
      t.num_offenders = t.offenders.toFinset.card ∧
      t.offenders.toFinset = (dNames l).toFinset ∧
      t.total_points = (dPoints cr l).sum := by
  refine ⟨teamAgg cr tb l, add_entry_team_lookup _ _ _ _ h,
    teamAgg_offenders_nodup _ _ _, ?_, teamAgg_offenders_toFinset _ _ _, teamAgg_total _ _ _⟩
  rw [teamAgg_num, List.toFinset_card_of_nodup (teamAgg_offenders_nodup cr tb l)]

/-- Witness for the C7 theorem on two arrests of the same defensive
player (`num_offenders` stays 1 while both offenses score). -/
theorem c7_witness :
    ∃ t : TeamEntry,
      lookupA (add_entry scenarioRankings BBState.empty "XYZ"
          [arrestDUI, arrestAssault]).bad_boy_data "XYZ" = some (.team t) ∧
      t.offenders.Nodup ∧
      t.num_offenders = t.offenders.toFinset.card ∧
      t.offenders.toFinset = (dNames [arrestDUI, arrestAssault]).toFinset ∧
      t.total_points = (dPoints scenarioRankings [arrestDUI, arrestAssault]).sum :=
  c7_team_offender_set scenarioRankings BBState.empty "XYZ" [arrestDUI, arrestAssault]
    (by decide)

/-- Claim C8: with the persist flag enabled, saving and then re-opening
the snapshot reproduces the aggregate store exactly (same entity keys,
same field values), for every store and prior file-system state. -/
theorem c8_roundtrip (s : BBState) (fs : FS) (cur : Store) :
    open_bad_boy_data (save_bad_boy_data true s fs) cur = some s.bad_boy_data := by
  simp [save_bad_boy_data, open_bad_boy_data, decodeStore_encodeStore]

/-- Claim C9: in offline mode (offline = true, refresh = false),
initialization raises the distinct missing-cached-data error when no
snapshot file exists or when the snapshot holds an empty store, and
succeeds with the loaded store — never reaching the web fetch — when the
snapshot is non-empty. -/
theorem c9_offline_modes :
    (∀ rawf, init_flow true false ⟨none, rawf⟩ = .missingDataError) ∧
    (∀ rawf j, decodeStore j = some [] → init_flow true false ⟨some j, rawf⟩ =
      .missingDataError) ∧
    (∀ rawf j st, decodeStore j = some st → st ≠ [] →
      init_flow true false ⟨some j, rawf⟩ = .ok st) := by
  refine ⟨fun rawf => rfl, fun rawf j h => ?_, fun rawf j st h hne => ?_⟩
  · simp [init_flow, open_bad_boy_data, h]
  · simp [init_flow, open_bad_boy_data, h, hne]

/-- Witness for the C9 theorem on a concrete non-empty snapshot. -/
theorem c9_witness :
    init_flow true false ⟨some (encodeStore [("Sam Hill", c9Entry)]), none⟩ =
      .ok [("Sam Hill", c9Entry)] :=
  c9_offline_modes.2.2 none _ _ (by decide) (by decide)

/-- Claim C10: each arrest processed by `add_entry` constructs a fresh
player entry and assigns it under the player's name, replacing whatever
was there (the result does not depend on the prior store), so every
player entry written by the call records exactly the one last-processed
arrest for that player and has an offenses list of length one. -/
theorem c10_replacement (cr : CrimeRankings) (s : BBState) (tb : String) (l : List Arrest)
    (k : String) (a : Arrest) (hne : l ≠ []) (hk : k ≠ tb)
    (ha : lastArrestOf k l = some a) :
    lookupA (add_entry cr s tb l).bad_boy_data k = some (.player (mkPlayerEntry cr tb a)) ∧
    (mkPlayerEntry cr tb a).offenses = [(upper a.crime, arrestPoints cr a)] ∧
    (mkPlayerEntry cr tb a).offenses.length = 1 := by
  refine ⟨?_, ?_, ?_⟩
  · rw [add_entry_player_lookup cr s tb l k hne hk, ha]
  · rw [mkPlayerEntry_fields]
  · rw [mkPlayerEntry_fields]
    rfl

/-- Witness for the C10 theorem at the concrete scenario input. -/
theorem c10_witness :
    lookupA (add_entry scenarioRankings BBState.empty "XYZ"
        [arrestDUI, arrestAssault]).bad_boy_data "John Smith" =
      some (.player (mkPlayerEntry scenarioRankings "XYZ" arrestAssault)) ∧
    (mkPlayerEntry scenarioRankings "XYZ" arrestAssault).offenses =
      [(upper arrestAssault.crime, arrestPoints scenarioRankings arrestAssault)] ∧
    (mkPlayerEntry scenarioRankings "XYZ" arrestAssault).offenses.length = 1 :=
  c10_replacement scenarioRankings BBState.empty "XYZ" [arrestDUI, arrestAssault]
    "John Smith" arrestAssault (by decide) (by decide) (by decide)

end BadBoy
